import Mathlib

/-!
Verification of the WNBA revenue visualization (src/app.py).

Shallow embedding of the chart logic of `src/app.py`:

* the fixed seven-row dataset (lines 21-26);
* the year-range filter (line 393);
* the interactive Plotly chart builder `create_interactive_chart`
  (lines 206-306), with its traces, bar mode, and layout annotations;
* the static Matplotlib chart builder `create_static_chart`
  (lines 32-199), restricted to the quantitative geometry it draws:
  bar centers/widths/heights/z-orders, y-axis ticks and labels, and
  the "$300 million" callout text;
* the raw-data table shown in the app (lines 405-410), with its derived
  "Revenue Share %" column;
* a small frame-heap model of the pandas operations of the render pass,
  used to state that the process-wide dataset is never mutated.

Numeric values are embedded as rationals (the Python values are small
integers and the only arithmetic is `+ - * /` and a round-to-one-decimal,
which is exact on these inputs up to the stated floating-point tolerance).
-/

namespace WNBAViz

/-- One row of the dataset of src/app.py lines 21-26: a year together with
the three series values (all in millions of USD). -/
structure DataRow where
  year : ℤ
  revenue : ℚ
  share50 : ℚ
  actual : ℚ
deriving DecidableEq, Repr, Inhabited

/-- The fixed dataset, src/app.py lines 21-26: columns "Year",
"WNBA Revenue", "50% Share (NBA-equivalent)", "Actual Player Salary". -/
def data : List DataRow :=
  [⟨2019,  95,  45, 12⟩,
   ⟨2020, 120,  57, 12⟩,
   ⟨2021, 142,  68, 17⟩,
   ⟨2022, 170,  82, 18⟩,
   ⟨2023, 193,  93, 18⟩,
   ⟨2024, 220, 105, 18⟩,
   ⟨2025, 295, 143, 18⟩]

/-- The year-range filter of src/app.py line 393:
`data[(data["Year"] >= year_range[0]) & (data["Year"] <= year_range[1])]`. -/
def filterByYearRange (lo hi : ℤ) (d : List DataRow) : List DataRow :=
  d.filter (fun r => decide (lo ≤ r.year ∧ r.year ≤ hi))

/-- The three bar series of the chart. -/
inductive Series where
  | revenue
  | share
  | actual
deriving DecidableEq, Repr, BEq, Inhabited

/-- The value a row carries for a series. -/
def seriesValue : Series → DataRow → ℚ
  | .revenue => fun r => r.revenue
  | .share   => fun r => r.share50
  | .actual  => fun r => r.actual

/-- One Plotly `go.Bar` trace as added by `create_interactive_chart`:
its series, legend name, x array (years), y array (bar heights), marker
color and hover template. -/
structure Trace where
  series : Series
  name : String
  x : List ℤ
  y : List ℚ
  markerColor : String
  hovertemplate : String
deriving DecidableEq, Repr

/-- One entry of the Plotly layout `annotations` list (src/app.py
lines 295-303); the only one the code emits is the sources footer,
with `showarrow=False`. -/
structure PlotlyAnnotation where
  text : String
  showarrow : Bool
deriving DecidableEq, Repr

/-- The parts of the Plotly figure built by `create_interactive_chart`
that the spec talks about: the ordered trace list, the bar mode, the
y-axis title/prefix/suffix and the layout annotations. -/
structure InteractiveFig where
  traces : List Trace
  barmode : String
  yaxisTitle : String
  tickprefix : String
  ticksuffix : String
  annotations : List PlotlyAnnotation
deriving DecidableEq, Repr

/-- The percent-mode 50%-share trace, src/app.py lines 214-221:
`y = df["50% Share (NBA-equivalent)"] / df["WNBA Revenue"] * 100`. -/
def pctShareTrace (df : List DataRow) : Trace :=
  ⟨Series.share, "50% Share (NBA-equivalent)",
    df.map (fun r => r.year),
    df.map (fun r => r.share50 / r.revenue * 100),
    "#9cb4d8",
    "<b>%\x7bx\x7d</b><br>50%% Share: %\x7by:.1f\x7d%% of revenue<extra></extra>"⟩

/-- The percent-mode actual-salary trace, src/app.py lines 222-229:
`y = df["Actual Player Salary"] / df["WNBA Revenue"] * 100`. -/
def pctActualTrace (df : List DataRow) : Trace :=
  ⟨Series.actual, "Actual WNBA Player Salary",
    df.map (fun r => r.year),
    df.map (fun r => r.actual / r.revenue * 100),
    "#4a6fa5",
    "<b>%\x7bx\x7d</b><br>Actual salary: %\x7by:.1f\x7d%% of revenue<extra></extra>"⟩

/-- The absolute-mode revenue trace, src/app.py lines 234-241. -/
def absRevenueTrace (df : List DataRow) : Trace :=
  ⟨Series.revenue, "WNBA Revenue",
    df.map (fun r => r.year),
    df.map (fun r => r.revenue),
    "#d4d4d4",
    "<b>%\x7bx\x7d</b><br>Revenue: $%\x7by\x7dM<extra></extra>"⟩

/-- The absolute-mode 50%-share trace, src/app.py lines 242-249. -/
def absShareTrace (df : List DataRow) : Trace :=
  ⟨Series.share, "50% Share (NBA-equivalent)",
    df.map (fun r => r.year),
    df.map (fun r => r.share50),
    "#9cb4d8",
    "<b>%\x7bx\x7d</b><br>50%% Share: $%\x7by\x7dM<extra></extra>"⟩

/-- The absolute-mode actual-salary trace, src/app.py lines 250-257. -/
def absActualTrace (df : List DataRow) : Trace :=
  ⟨Series.actual, "Actual WNBA Player Salary",
    df.map (fun r => r.year),
    df.map (fun r => r.actual),
    "#4a6fa5",
    "<b>%\x7bx\x7d</b><br>Actual salary: $%\x7by\x7dM<extra></extra>"⟩

/-- src/app.py lines 206-306, `create_interactive_chart(df, show_revenue,
show_share, show_actual, pct_mode)`.  In `pct_mode` the only possible
traces are the 50%-share and actual-salary ones, each with
`y = df[col] / df["WNBA Revenue"] * 100`; otherwise the revenue, share
and actual traces are added in that order, each guarded by its flag.
The layout always sets `barmode="group"` and one source-citation
annotation with `showarrow=False`. -/
def create_interactive_chart (df : List DataRow)
    (show_revenue show_share show_actual pct_mode : Bool) : InteractiveFig :=
  let traces :=
    if pct_mode then
      (if show_share then [pctShareTrace df] else []) ++
      (if show_actual then [pctActualTrace df] else [])
    else
      (if show_revenue then [absRevenueTrace df] else []) ++
      (if show_share then [absShareTrace df] else []) ++
      (if show_actual then [absActualTrace df] else [])
  { traces := traces
    barmode := "group"
    yaxisTitle := if pct_mode then "Percentage of League Revenue" else "Millions (USD)"
    tickprefix := if pct_mode then "" else "$"
    ticksuffix := if pct_mode then "%" else "M"
    annotations :=
      [⟨"Sources: Bloomberg, Forbes, Sportico, Rodney Fort's Sports Business Data", false⟩] }

end WNBAViz

namespace WNBAViz

/-- Looking up the bar height of a series at a given year in an
interactive figure: the first trace of that series, then the y value
paired with that year in its (x, y) arrays. -/
def barHeight (fig : InteractiveFig) (s : Series) (yr : ℤ) : Option ℚ :=
  (fig.traces.find? (fun t => t.series == s)).bind
    (fun t => (t.x.zip t.y).lookup yr)

/-- One bar drawn by `create_static_chart` (src/app.py lines 59-64):
`ax.bar(x + offset + w/2, values, width=w, color=c, zorder=z)` draws,
for each row index `i`, a bar centered at `i + offset + w/2` of width `w`
and height `values[i]`. -/
structure StaticBar where
  series : Series
  center : ℚ
  width : ℚ
  height : ℚ
  color : String
  zorder : ℕ
deriving DecidableEq, Repr, Inhabited

/-- Bar width of the gray (revenue) series, src/app.py line 47. -/
def w_gray : ℚ := 55 / 100

/-- Bar width of the blue (50%-share) series, src/app.py line 48. -/
def w_blue : ℚ := 40 / 100

/-- Bar width of the dark-blue (actual-salary) series, src/app.py line 49. -/
def w_dark : ℚ := 20 / 100

/-- Horizontal offset shared by all three series, src/app.py line 58. -/
def bar_offset : ℚ := -(15 / 100)

/-- The bars of one series of the static chart: for each row index `i`
(the `x = np.arange(len(years))` positions of line 44), a bar centered
at `i + bar_offset + w / 2` with width `w`, height `v row`, color `c`
and z-order `z`. -/
def staticSeriesBars (s : Series) (w : ℚ) (c : String) (z : ℕ)
    (v : DataRow → ℚ) : List StaticBar :=
  data.enum.map (fun p => ⟨s, (p.1 : ℚ) + bar_offset + w / 2, w, v p.2, c, z⟩)

/-- The gray revenue bars `bars_gray`, src/app.py lines 59-60 (zorder=1). -/
def bars_gray : List StaticBar :=
  staticSeriesBars Series.revenue w_gray "#d4d4d4" 1 (fun r => r.revenue)

/-- The blue share bars `bars_blue`, src/app.py lines 61-62 (zorder=2). -/
def bars_blue : List StaticBar :=
  staticSeriesBars Series.share w_blue "#9cb4d8" 2 (fun r => r.share50)

/-- The dark actual-salary bars `bars_dark`, src/app.py lines 63-64 (zorder=3). -/
def bars_dark : List StaticBar :=
  staticSeriesBars Series.actual w_dark "#4a6fa5" 3 (fun r => r.actual)

/-- All bars of the static chart, in the order the code draws them
(gray call first, blue second, dark last, lines 59-64). -/
def staticBars : List StaticBar := bars_gray ++ bars_blue ++ bars_dark

/-- Left edge of a bar: its center minus half its width. -/
def leftEdge (b : StaticBar) : ℚ := b.center - b.width / 2

/-- The fixed y ticks of the static chart, src/app.py line 68. -/
def yticks : List ℕ := [50, 100, 150, 200, 250, 300]

/-- The y-tick label of the static chart for tick value `v`, src/app.py
lines 81-88 (this second loop overwrites the list built at lines 73-78,
which is dead code): 300 gets the empty label, 50 gets "50 mil.",
every other tick gets `f"\x7bv\x7d mil."`. -/
def ylabelOf (v : ℕ) : String :=
  if v = 300 then ""
  else if v = 50 then "50 mil."
  else toString v ++ " mil."

/-- The y-tick labels passed to `ax.set_yticklabels`, src/app.py line 89. -/
def ylabels : List String := yticks.map ylabelOf

/-- A free-standing `ax.text` callout. -/
structure TextCallout where
  x : ℚ
  y : ℚ
  text : String
deriving DecidableEq, Repr

/-- The "$300 million" text placed above the axis, src/app.py
lines 97-99: `ax.text(-0.8, 305, "$300 million", ...)`. -/
def topCallout : TextCallout := ⟨-(8 / 10), 305, "$300 million"⟩

/-- The y-axis upper limit of the static chart, src/app.py line 67. -/
def static_ylim_top : ℚ := 320

/-- The derived table shown under "View Raw Data", src/app.py
lines 405-410: each filtered row together with a
"Revenue Share %" column, `(actual / revenue * 100).round(1)`. -/
structure DisplayRow where
  row : DataRow
  revenueSharePct : ℚ
deriving DecidableEq, Repr

/-- Round to the nearest integer, ties to even — the rounding used by
`pandas.Series.round` (IEEE-754 / numpy half-to-even). -/
def roundHalfEven (q : ℚ) : ℤ :=
  if q - (⌊q⌋ : ℚ) < 1 / 2 then ⌊q⌋
  else if q - (⌊q⌋ : ℚ) > 1 / 2 then ⌊q⌋ + 1
  else if ⌊q⌋ % 2 = 0 then ⌊q⌋ else ⌊q⌋ + 1

/-- Pandas `.round(1)`: round to one decimal place, ties to even. -/
def round1 (q : ℚ) : ℚ := (roundHalfEven (q * 10) : ℚ) / 10

/-- src/app.py lines 406-409: `display_df = filtered.copy()` followed by
`display_df["Revenue Share %"] = (actual / revenue * 100).round(1)`. -/
def display_df (d : List DataRow) : List DisplayRow :=
  d.map (fun r => ⟨r, round1 (r.actual / r.revenue * 100)⟩)

/-- The canonical draw order of the three series (spec: revenue behind,
equalShare middle, actual front). -/
def seriesOrder : List Series := [Series.revenue, Series.share, Series.actual]

/-- Which series `create_interactive_chart` emits for given flags: the
share and actual series iff their toggles are on; the revenue series iff
its toggle is on and percent mode is off. -/
def emitsSeries (show_revenue show_share show_actual pct_mode : Bool) :
    Series → Bool
  | .revenue => show_revenue && !pct_mode
  | .share   => show_share
  | .actual  => show_actual

/-- A pandas DataFrame value: its seven-column rows plus the optional
"Revenue Share %" column the app adds to the display copy. -/
structure Frame where
  rows : List DataRow
  shareCol : Option (List ℚ)
deriving DecidableEq, Repr, Inhabited

/-- A heap of DataFrame objects; names in the script bind frame ids.
Models pandas aliasing: boolean indexing and `.copy()` allocate fresh
frames, column assignment mutates a frame in place. -/
structure Heap where
  frames : List Frame
deriving DecidableEq, Repr

/-- Allocate a fresh frame, returning the new heap and the frame's id. -/
def alloc (h : Heap) (f : Frame) : Heap × ℕ :=
  (⟨h.frames ++ [f]⟩, h.frames.length)

/-- Read the frame bound to an id. -/
def readFrame (h : Heap) (i : ℕ) : Frame :=
  h.frames.getD i default

/-- In-place update of the frame bound to an id (pandas column
assignment). -/
def writeFrame (h : Heap) (i : ℕ) (f : Frame) : Heap :=
  ⟨h.frames.set i f⟩

/-- The heap at startup: the process-wide `data` frame at id 0
(src/app.py lines 21-26). -/
def initialHeap : Heap := ⟨[⟨data, none⟩]⟩

/-- Everything one render pass of the script produces. -/
structure RenderResult where
  heap : Heap
  filteredId : ℕ
  displayId : ℕ
  fig : InteractiveFig
  staticFigBars : List StaticBar
deriving Repr

/-- One top-to-bottom render pass of src/app.py as it touches
DataFrames: build the static chart (line 347, reads `data` only),
filter by the year range (line 393, boolean indexing allocates a fresh
frame), build the interactive chart from the filtered frame
(lines 395-401), take `display_df = filtered.copy()` (line 406,
allocates a fresh frame) and assign its "Revenue Share %" column
(lines 407-409, in-place mutation of the copy). -/
def renderPass (lo hi : ℤ) (sr ss sa pm : Bool) : RenderResult :=
  let h0 := initialHeap
  let sBars := staticBars
  let filtF : Frame := ⟨filterByYearRange lo hi (readFrame h0 0).rows, none⟩
  let a1 := alloc h0 filtF
  let h1 := a1.1
  let fid := a1.2
  let fig := create_interactive_chart (readFrame h1 fid).rows sr ss sa pm
  let a2 := alloc h1 (readFrame h1 fid)
  let h2 := a2.1
  let did := a2.2
  let base := readFrame h2 did
  let withCol : Frame :=
    ⟨base.rows, some (base.rows.map (fun r => round1 (r.actual / r.revenue * 100)))⟩
  let h3 := writeFrame h2 did withCol
  ⟨h3, fid, did, fig, sBars⟩

/-- Modelled from the spec: the interactive renderer delegates bar
placement to the plotting library's `barmode="group"` layout
(src/app.py line 262; the `go.Bar` traces set no per-trace offset,
base or width).  The library's documented group layout divides each
unit category slot, less the default bar gap of 0.2, evenly among the
`K` visible traces and centers the group on the category position `x`,
so trace `j` gets the left edge below.  The library itself is an
external black box; only this layout rule is modelled. -/
def groupBarLeftEdge (K j : ℕ) (x : ℚ) : ℚ :=
  x - 2 / 5 + (j : ℚ) * ((4 / 5) / (K : ℚ))

end WNBAViz

namespace WNBAViz

/-- Helper: every row of the sample dataset has nonzero (indeed
positive) total revenue. -/
theorem data_revenue_ne_zero : ∀ r ∈ data, r.revenue ≠ 0 := by
  decide

/-- Helper: membership in a zip of two maps over the same list. -/
theorem mem_zip_map_ratio (df : List DataRow) (f : DataRow → ℚ) (p : ℤ × ℚ)
    (hp : p ∈ (df.map (fun r => r.year)).zip
      (df.map (fun r => f r / r.revenue * 100))) :
    ∃ r ∈ df, p.1 = r.year ∧ p.2 = 100 * f r / r.revenue := by
  rw [List.zip_map'] at hp
  rcases List.mem_map.mp hp with ⟨r, hr, hpr⟩
  refine ⟨r, hr, ?_, ?_⟩
  · rw [← hpr]
  · rw [← hpr]
    show f r / r.revenue * 100 = 100 * f r / r.revenue
    rw [div_mul_eq_mul_div, mul_comm]

/-- Helper: the series of the traces emitted by `create_interactive_chart`,
in order, are exactly the canonical order filtered by the visibility
flags (revenue additionally suppressed in percent mode). -/
theorem traces_map_series (df : List DataRow)
    (sr ss sa pm : Bool) :
    (create_interactive_chart df sr ss sa pm).traces.map (fun t => t.series) =
      seriesOrder.filter (emitsSeries sr ss sa pm) := by
  cases pm <;> cases sr <;> cases ss <;> cases sa <;>
    simp [create_interactive_chart, seriesOrder, emitsSeries,
      pctShareTrace, pctActualTrace, absRevenueTrace, absShareTrace, absActualTrace]

/-- C5: Filtering the sample dataset by yearRange = [2020, 2022] yields
exactly the rows for years 2020, 2021 and 2022, in that order, and no
others. -/
theorem filter_2020_2022_exact :
    filterByYearRange 2020 2022 data =
      [⟨2020, 120, 57, 12⟩, ⟨2021, 142, 68, 17⟩, ⟨2022, 170, 82, 18⟩] := by
  decide

/-- C9: In percent mode, the interactive renderer never emits the revenue
series, even when the revenue visibility toggle is on; only the equalShare
and actual series can appear. -/
theorem pct_mode_never_emits_revenue (df : List DataRow)
    (show_revenue show_share show_actual : Bool) :
    Series.revenue ∉
      (create_interactive_chart df show_revenue show_share show_actual true).traces.map
        (fun t => t.series) := by
  cases show_revenue <;> cases show_share <;> cases show_actual <;>
    simp [create_interactive_chart, pctShareTrace, pctActualTrace]

/-- C1: For every ViewOptions with percentMode on, each emitted bar
height (equalShare or actual series) equals `100 * seriesValue /
totalRevenue` of its row; the row's totalRevenue is never 0 on any
filtered subset of the dataset, so the zero case degenerates to 0
vacuously rather than propagating a numeric fault. -/
theorem pct_heights_eq_ratio (lo hi : ℤ) (sr ss sa : Bool) (t : Trace)
    (ht : t ∈ (create_interactive_chart (filterByYearRange lo hi data) sr ss sa true).traces)
    (p : ℤ × ℚ) (hp : p ∈ t.x.zip t.y) :
    ∃ r ∈ filterByYearRange lo hi data,
      p.1 = r.year ∧ r.revenue ≠ 0 ∧
      p.2 = 100 * seriesValue t.series r / r.revenue ∧
      (r.revenue = 0 → p.2 = 0) := by
  have hrev : ∀ r ∈ filterByYearRange lo hi data, r.revenue ≠ 0 := by
    intro r hr
    exact data_revenue_ne_zero r (List.mem_filter.mp hr).1
  have main : ∃ r ∈ filterByYearRange lo hi data,
      p.1 = r.year ∧ p.2 = 100 * seriesValue t.series r / r.revenue := by
    have ht' : t ∈ (if ss then [pctShareTrace (filterByYearRange lo hi data)] else []) ++
        (if sa then [pctActualTrace (filterByYearRange lo hi data)] else []) := ht
    rcases List.mem_append.mp ht' with h | h
    · cases ss with
      | false => exact absurd h (List.not_mem_nil t)
      | true =>
        have h2 : t = pctShareTrace (filterByYearRange lo hi data) :=
          List.mem_singleton.mp h
        subst h2
        exact mem_zip_map_ratio _ (fun r => r.share50) p hp
    · cases sa with
      | false => exact absurd h (List.not_mem_nil t)
      | true =>
        have h2 : t = pctActualTrace (filterByYearRange lo hi data) :=
          List.mem_singleton.mp h
        subst h2
        exact mem_zip_map_ratio _ (fun r => r.actual) p hp
  rcases main with ⟨r, hr, h1, h2⟩
  exact ⟨r, hr, h1, hrev r hr, h2, fun h0 => absurd h0 (hrev r hr)⟩

/-- Witness for C1 at yearRange = [2019, 2019], the equalShare trace and
its single point (2019, 45/95·100). -/
theorem pct_heights_eq_ratio_witness :
    ∃ r ∈ filterByYearRange 2019 2019 data,
      ((2019 : ℤ), (45 : ℚ) / 95 * 100).1 = r.year ∧ r.revenue ≠ 0 ∧
      ((2019 : ℤ), (45 : ℚ) / 95 * 100).2 =
        100 * seriesValue Series.share r / r.revenue ∧
      (r.revenue = 0 → ((2019 : ℤ), (45 : ℚ) / 95 * 100).2 = 0) :=
  pct_heights_eq_ratio 2019 2019 true true true
    (pctShareTrace (filterByYearRange 2019 2019 data))
    (by simp [create_interactive_chart])
    ((2019 : ℤ), (45 : ℚ) / 95 * 100)
    (by simp [pctShareTrace, filterByYearRange, data])

/-- C2: For every ViewOptions the interactive traces appear in the fixed
order revenue, equalShare, actual — hiding a series just filters it out
of that order — and the static chart draws its bars with the fixed
z-orders revenue=1 (behind), equalShare=2, actual=3 (front). -/
theorem draw_order_fixed :
    (∀ (df : List DataRow) (sr ss sa pm : Bool),
      (create_interactive_chart df sr ss sa pm).traces.map (fun t => t.series) =
        seriesOrder.filter (emitsSeries sr ss sa pm)) ∧
    staticBars.map (fun b => (b.series, b.zorder)) =
      List.replicate 7 (Series.revenue, 1) ++ List.replicate 7 (Series.share, 2) ++
        List.replicate 7 (Series.actual, 3) := by
  exact ⟨traces_map_series, by decide⟩

/-- C3: In the static chart, the three bars of every row share the left
edge `i + bar_offset` and have the fixed widths 0.55 (revenue),
0.40 (equalShare) and 0.20 (actual) of the unit slot. -/
theorem static_bars_left_aligned :
    ∀ i : Fin 7,
      leftEdge (bars_gray.getD i default) = (i : ℕ) + bar_offset ∧
      leftEdge (bars_blue.getD i default) = (i : ℕ) + bar_offset ∧
      leftEdge (bars_dark.getD i default) = (i : ℕ) + bar_offset ∧
      (bars_gray.getD i default).width = 55 / 100 ∧
      (bars_blue.getD i default).width = 40 / 100 ∧
      (bars_dark.getD i default).width = 20 / 100 := by
  intro i
  fin_cases i <;>
    simp [bars_gray, bars_blue, bars_dark, staticSeriesBars, data, leftEdge,
      w_gray, w_blue, w_dark, bar_offset, List.enum, List.enumFrom]

/-- C4: A year range excluding every dataset row yields an interactive
figure with zero bar points and zero arrow annotations, still carrying
the valid grouped-bar layout (the builder is total: no error path). -/
theorem empty_range_empty_chart (lo hi : ℤ) (sr ss sa pm : Bool)
    (h : ∀ r ∈ data, ¬(lo ≤ r.year ∧ r.year ≤ hi)) :
    (((create_interactive_chart (filterByYearRange lo hi data) sr ss sa pm).traces.map
        (fun t => (t.x.zip t.y).length)).sum = 0) ∧
    ((create_interactive_chart (filterByYearRange lo hi data) sr ss sa pm).annotations.filter
        (fun a => a.showarrow)) = [] ∧
    (create_interactive_chart (filterByYearRange lo hi data) sr ss sa pm).barmode =
      "group" := by
  have hf : filterByYearRange lo hi data = [] := by
    apply List.filter_eq_nil_iff.mpr
    intro r hr
    simpa using h r hr
  rw [hf]
  cases pm <;> cases sr <;> cases ss <;> cases sa <;>
    simp [create_interactive_chart, pctShareTrace, pctActualTrace,
      absRevenueTrace, absShareTrace, absActualTrace]

/-- Witness for C4 at yearRange = [2026, 2030], which excludes all rows. -/
theorem empty_range_empty_chart_witness :
    (((create_interactive_chart (filterByYearRange 2026 2030 data) true true true false).traces.map
        (fun t => (t.x.zip t.y).length)).sum = 0) ∧
    ((create_interactive_chart (filterByYearRange 2026 2030 data) true true true false).annotations.filter
        (fun a => a.showarrow)) = [] ∧
    (create_interactive_chart (filterByYearRange 2026 2030 data) true true true false).barmode =
      "group" :=
  empty_range_empty_chart 2026 2030 true true true false (by decide)

/-- C6: With the sample dataset, yearRange [2019, 2025], all series
visible and percent mode off, the 2025 bar heights are 295 (revenue),
143 (equalShare) and 18 (actual), and the displayed share percentage of
2019 is 12/95·100 rounded to one decimal, i.e. 12.6. -/
theorem sample_heights_and_share_pct :
    barHeight (create_interactive_chart (filterByYearRange 2019 2025 data)
        true true true false) Series.revenue 2025 = some 295 ∧
    barHeight (create_interactive_chart (filterByYearRange 2019 2025 data)
        true true true false) Series.share 2025 = some 143 ∧
    barHeight (create_interactive_chart (filterByYearRange 2019 2025 data)
        true true true false) Series.actual 2025 = some 18 ∧
    ((display_df (filterByYearRange 2019 2025 data)).find?
        (fun dr => dr.row.year == 2019)).map (fun dr => dr.revenueSharePct) =
      some (126 / 10) := by
  refine ⟨by decide, by decide, by decide, ?_⟩
  have hfilter : filterByYearRange 2019 2025 data = data := by decide
  have hfloor : ⌊((12 : ℚ) / 95 * 100 * 10)⌋ = 126 := by
    rw [Int.floor_eq_iff]
    norm_num
  rw [hfilter]
  simp only [display_df, data, List.map, List.find?]
  norm_num
  simp only [round1, roundHalfEven, hfloor]
  norm_num

/-- C7: The static chart's y ticks are exactly 50..300 by 50; every tick
except the maximum 300 gets a textual label, 300 gets the empty label
and instead the standalone "$300 million" callout sits above it (and
below the axis top). -/
theorem yticks_labels_and_callout :
    yticks = [50, 100, 150, 200, 250, 300] ∧
    ylabels = ["50 mil.", "100 mil.", "150 mil.", "200 mil.", "250 mil.", ""] ∧
    topCallout.text = "$300 million" ∧
    (300 : ℚ) < topCallout.y ∧ topCallout.y < static_ylim_top := by
  decide

/-- C8: The process-wide dataset is immutable across a full render pass:
after filtering, building both charts, copying and adding the derived
column, the frame at id 0 still holds exactly `data`, and the filtered
and display tables are fresh frames at distinct nonzero ids. -/
theorem dataset_immutable (lo hi : ℤ) (sr ss sa pm : Bool) :
    readFrame (renderPass lo hi sr ss sa pm).heap 0 = ⟨data, none⟩ ∧
    (renderPass lo hi sr ss sa pm).filteredId = 1 ∧
    (renderPass lo hi sr ss sa pm).displayId = 2 := by
  exact ⟨rfl, rfl, rfl⟩

/-- C10: The interactive renderer uses the grouped (center-aligned) bar
mode, its visible series are pairwise distinct, and under the modelled
group layout two distinct trace slots of the same row never share a
left edge. -/
theorem grouped_left_edges_distinct (df : List DataRow) (sr ss sa pm : Bool)
    (K j k : ℕ) (x : ℚ) (hj : j < K) (_hk : k < K) (hjk : j ≠ k) :
    (create_interactive_chart df sr ss sa pm).barmode = "group" ∧
    ((create_interactive_chart df sr ss sa pm).traces.map (fun t => t.series)).Nodup ∧
    groupBarLeftEdge K j x ≠ groupBarLeftEdge K k x := by
  refine ⟨rfl, ?_, ?_⟩
  · rw [traces_map_series]
    exact List.Nodup.filter _ (by decide)
  · intro heq
    have hK : (K : ℚ) ≠ 0 := by
      have : 0 < K := lt_of_le_of_lt (Nat.zero_le j) hj
      exact_mod_cast this.ne'
    have hd : ((4 : ℚ) / 5) / (K : ℚ) ≠ 0 := div_ne_zero (by norm_num) hK
    have hmul : (j : ℚ) * ((4 : ℚ) / 5 / (K : ℚ)) = (k : ℚ) * ((4 : ℚ) / 5 / (K : ℚ)) := by
      unfold groupBarLeftEdge at heq
      linarith
    have : (j : ℚ) = (k : ℚ) := mul_right_cancel₀ hd hmul
    exact hjk (by exact_mod_cast this)

/-- Witness for C10 with both toggled series visible: two traces
(K = 2, slots 0 and 1) at the 0 category position. -/
theorem grouped_left_edges_distinct_witness :
    (create_interactive_chart data true true true false).barmode = "group" ∧
    ((create_interactive_chart data true true true false).traces.map
        (fun t => t.series)).Nodup ∧
    groupBarLeftEdge 2 0 0 ≠ groupBarLeftEdge 2 1 0 :=
  grouped_left_edges_distinct data true true true false 2 0 1 0
    (by decide) (by decide) (by decide)

end WNBAViz
